import Mathlib

/-!
Verification of the K8ssandraCluster reconciliation controller
(`controllers/k8ssandracluster_controller.go`).

The Go controller is shallowly embedded: its data types become Lean
structures, external collaborators (the content hasher's digest, the
readiness predicate, the remote-client cache, fault injection and the
concurrent-writer window of the optimistic-lock patch) become an `Env`
record, each remote cluster's observable state becomes a `World` keyed by
the datacenter's namespace/name, and the reconciliation pass is a fold over
the datacenter template list that threads the world and records every
client call in an operation trace.
-/

/-! ## Association-list helpers (Go `map[string]string`) -/

def lookupStr : List (String × String) → String → Option String
  | [], _ => none
  | (k, v) :: rest, key => if k = key then some v else lookupStr rest key

def setStr : List (String × String) → String → String → List (String × String)
  | [], k, v => [(k, v)]
  | (k', v') :: rest, k, v =>
    if k' = k then (k, v) :: rest else (k', v') :: setStr rest k v

/-! ## Data model (mirrors the Go structs used by the controller) -/

/-- `metav1.ObjectMeta` restricted to the fields the controller touches.
`resourceVersion` models the platform's optimistic-concurrency token
(Go keeps it as a string; a fresh in-memory object carries the zero value,
modelled as `0`). -/
structure ObjectMeta where
  ns : String
  name : String
  anns : List (String × String)
  resourceVersion : Nat
  deriving Repr, DecidableEq, Inhabited

/-- `cassdcapi.NetworkingConfig`. -/
structure NetworkingConfig where
  hostNetwork : Bool
  deriving Repr, DecidableEq, Inhabited

/-- `cassdcapi.CassandraDatacenterSpec` restricted to the fields the
controller populates. `resources`, `config`, `racks` and `storageConfig`
are opaque payloads the controller copies verbatim from the template, so
they are modelled as opaque strings. -/
structure CassandraDatacenterSpec where
  clusterName : String
  size : Int
  serverType : String
  serverVersion : String
  resources : String
  config : String
  racks : String
  storageConfig : String
  additionalSeeds : List String
  networking : Option NetworkingConfig
  deriving Repr, DecidableEq, Inhabited

/-- `cassdcapi.CassandraDatacenter`. -/
structure CassandraDatacenter where
  metadata : ObjectMeta
  spec : CassandraDatacenterSpec
  deriving Repr, DecidableEq, Inhabited

/-- `template.Meta` (name plus optional namespace override). -/
structure EmbeddedObjectMeta where
  ns : String
  name : String
  deriving Repr, DecidableEq, Inhabited

/-- `api.CassandraDatacenterTemplateSpec`. -/
structure CassandraDatacenterTemplateSpec where
  meta : EmbeddedObjectMeta
  k8sContext : String
  size : Int
  serverVersion : String
  resources : String
  config : String
  racks : String
  storageConfig : String
  deriving Repr, DecidableEq, Inhabited

/-- The `Spec.Cassandra` block of the cluster resource. -/
structure CassandraClusterTemplate where
  cluster : String
  datacenters : List CassandraDatacenterTemplateSpec
  deriving Repr, DecidableEq, Inhabited

/-- `api.K8ssandraClusterSpec` restricted to what the controller reads. -/
structure K8ssandraClusterSpec where
  cassandra : Option CassandraClusterTemplate
  k8sContextsSecret : String
  deriving Repr, DecidableEq, Inhabited

/-- Identity of the cluster resource on the hub cluster. -/
structure ClusterMeta where
  ns : String
  name : String
  deriving Repr, DecidableEq, Inhabited

/-- `api.K8ssandraCluster` (already fetched; the reconcile entry point
receives it after the initial `Get`). -/
structure K8ssandraCluster where
  metadata : ClusterMeta
  spec : K8ssandraClusterSpec
  deriving Repr, DecidableEq, Inhabited

/-- `corev1.Pod` restricted to what seed discovery reads: labels and the
reported pod IP (which may be the empty string when no IP is assigned). -/
structure PodStatus where
  podIP : String
  deriving Repr, DecidableEq, Inhabited

structure Pod where
  labels : List (String × String)
  status : PodStatus
  deriving Repr, DecidableEq, Inhabited

/-- The `resourceHashAnnotation` constant `k8ssandra.io/resource-hash`. -/
def resourceHashKey : String := "k8ssandra.io/resource-hash"

/-- `cassdcapi.DatacenterLabel`. -/
def datacenterLabel : String := "cassandra.datastax.com/datacenter"

/-! ## Base64 (Go `base64.StdEncoding.EncodeToString`) -/

def b64Alphabet : List Char :=
  "ABCDEFGHIJKLMNOPQRSTUVWXYZabcdefghijklmnopqrstuvwxyz0123456789+/".toList

def b64Char (n : Nat) : Char := b64Alphabet.getD n 'A'

/-- Standard base64 of a byte list, char-list form. -/
def base64EncodeChars : List UInt8 → List Char
  | [] => []
  | [b1] =>
    let n := b1.toNat
    [b64Char (n / 4), b64Char ((n % 4) * 16), '=', '=']
  | [b1, b2] =>
    let n := b1.toNat * 256 + b2.toNat
    [b64Char (n / 1024), b64Char ((n / 16) % 64), b64Char ((n % 16) * 4), '=']
  | b1 :: b2 :: b3 :: rest =>
    let n := b1.toNat * 65536 + b2.toNat * 256 + b3.toNat
    b64Char (n / 262144) :: b64Char ((n / 4096) % 64) :: b64Char ((n / 64) % 64)
      :: b64Char (n % 64) :: base64EncodeChars rest

def base64Encode (l : List UInt8) : String := String.mk (base64EncodeChars l)

/-- A SHA-256 digest: exactly 32 bytes, as produced by
`hasher.Sum([]byte\x7b\x7d)` for `sha256.New()`. -/
abbrev Digest : Type := { l : List UInt8 // l.length = 32 }

/-! ## External collaborators and fault model -/

/-- Outcome of `ClientCache.GetClient` for a given target context. -/
inductive ResolveOutcome
  | ok
  | failed
  | nilClient
  deriving Repr, DecidableEq

/-- Key of a datacenter resource on its remote cluster: namespace × name. -/
abbrev DcKey : Type := String × String

/-- Observable state of one remote cluster at one datacenter key: the
actual `CassandraDatacenter` (none = not found) and the pods the remote
cluster would return for that datacenter's client. -/
structure RemoteState where
  resource : Option CassandraDatacenter
  pods : List Pod

def World : Type := DcKey → RemoteState

def World.set (w : World) (k : DcKey) (s : RemoteState) : World :=
  fun k' => if k' = k then s else w k'

/-- The external collaborators of the pass (spec section 6):
* `deepHash` — the digest of `hash.DeepHashObject` into `sha256.New()`,
  an opaque deterministic function of the object producing 32 bytes;
* `isReady` — `cassandra.DatacenterReady`, the readiness predicate owned
  by the database-operator collaborator;
* `resolve` — `ClientCache.GetClient`, keyed by the template's
  `K8sContext` (owner identity and secret reference are fixed per pass);
* fault flags — whether a given remote call fails this pass;
* `interfere` — a concurrent writer that may replace the stored resource
  between seed propagation's fetch and its conditional patch. -/
structure Env where
  deepHash : CassandraDatacenter → Digest
  isReady : CassandraDatacenter → Bool
  resolve : String → ResolveOutcome
  getFails : DcKey → Bool
  createFails : DcKey → Bool
  updateFails : DcKey → Bool
  listFails : DcKey → Bool
  interfere : DcKey → Option CassandraDatacenter

/-- No injected faults and no concurrent writer: the quiet environment in
which every remote call succeeds. -/
def Env.quiet (env : Env) : Prop :=
  (∀ c, env.resolve c = ResolveOutcome.ok) ∧
  (∀ k, env.getFails k = false) ∧
  (∀ k, env.createFails k = false) ∧
  (∀ k, env.updateFails k = false) ∧
  (∀ k, env.listFails k = false) ∧
  (∀ k, env.interfere k = none)

/-- Error taxonomy of the pass (spec section 7). -/
inductive RErr
  | resolveFailed
  | nilClient
  | getFailed
  | getNotFound
  | createFailed
  | updateFailed
  | listFailed
  | conflict
  | patchFailed
  deriving Repr, DecidableEq

/-- One remote-client call, recorded in the pass's trace.  `update`,
`create` and `patch` carry the object handed to the client. -/
inductive Op
  | get (key : DcKey)
  | update (key : DcKey) (obj : CassandraDatacenter)
  | create (key : DcKey) (obj : CassandraDatacenter)
  | list (key : DcKey)
  | patch (key : DcKey) (obj : CassandraDatacenter)
  deriving Repr, DecidableEq

/-- Is this op a mutating write addressed to `k`? (`get`/`list` read.) -/
def Op.isWriteTo (k : DcKey) : Op → Bool
  | Op.update key _ => key = k
  | Op.create key _ => key = k
  | Op.patch key _ => key = k
  | _ => false

/-- The datacenter key an op addresses. -/
def Op.key : Op → DcKey
  | Op.get k => k
  | Op.update k _ => k
  | Op.create k _ => k
  | Op.list k => k
  | Op.patch k _ => k

/-- `ctrl.Result`: requeue delay in seconds (0 = done, no revisit). -/
structure CtrlResult where
  requeueAfter : Nat
  deriving Repr, DecidableEq, Inhabited

/-! ## The controller functions -/

/-- `newDatacenter` (source lines 154-181): pure desired-state builder. -/
def newDatacenter (k8ssandraNamespace cluster : String)
    (template : CassandraDatacenterTemplateSpec)
    (additionalSeeds : List String) : CassandraDatacenter :=
  let namespace_ :=
    if template.meta.ns.length = 0 then k8ssandraNamespace else template.meta.ns
  { metadata :=
      { ns := namespace_
        name := template.meta.name
        anns := []
        resourceVersion := 0 }
    spec :=
      { clusterName := cluster
        size := template.size
        serverType := "cassandra"
        serverVersion := template.serverVersion
        resources := template.resources
        config := template.config
        racks := template.racks
        storageConfig := template.storageConfig
        additionalSeeds := additionalSeeds
        networking := some { hostNetwork := true } } }

/-- `deepHashString` (source lines 183-189): sha256 digest of the object's
canonical deep representation, base64-encoded. The digest itself is the
external hasher `env.deepHash`; the base64 step is concrete. -/
def deepHashString (env : Env) (obj : CassandraDatacenter) : String :=
  base64Encode (env.deepHash obj).val

/-- The desired resource as the loop writes it: built by `newDatacenter`,
then the fingerprint annotation is set (source lines 81, 89-90; the hash
is computed before the annotation is inserted). -/
def buildDesired (env : Env) (k8ssandraNamespace cluster : String)
    (template : CassandraDatacenterTemplateSpec)
    (seeds : List String) : CassandraDatacenter :=
  let d0 := newDatacenter k8ssandraNamespace cluster template seeds
  { d0 with metadata :=
      { d0.metadata with
          anns := setStr d0.metadata.anns resourceHashKey (deepHashString env d0) } }

/-- `getDatacenterKey` (source lines 270-275). -/
def getDatacenterKey (dcTemplate : CassandraDatacenterTemplateSpec)
    (k8ssandraKey : DcKey) : DcKey :=
  if dcTemplate.meta.ns.length = 0 then (k8ssandraKey.1, dcTemplate.meta.name)
  else (dcTemplate.meta.ns, dcTemplate.meta.name)

/-- Datacenter templates of the cluster resource (empty when no Cassandra
block is declared). -/
def K8ssandraCluster.datacenters (k8s : K8ssandraCluster) :
    List CassandraDatacenterTemplateSpec :=
  match k8s.spec.cassandra with
  | none => []
  | some cass => cass.datacenters

/-- Key of the datacenter for template index `idx`, as
`getDatacenterForTemplate` computes it. -/
def dcKeyForTemplate (k8s : K8ssandraCluster) (idx : Nat) : DcKey :=
  getDatacenterKey (k8s.datacenters.getD idx default)
    (k8s.metadata.ns, k8s.metadata.name)

/-- The key under which the convergence loop addresses a template's
datacenter: the namespace/name of the desired resource it builds
(source line 82).  Agrees with `dcKeyForTemplate` when the request
namespace is the cluster resource's namespace. -/
def templateKey (k8s : K8ssandraCluster)
    (t : CassandraDatacenterTemplateSpec) : DcKey :=
  (if t.meta.ns.length = 0 then k8s.metadata.ns else t.meta.ns, t.meta.name)

/-- The loop body of `resolveSeedEndpoints` (source lines 216-223): append
each pod's reported IP, breaking once more than two endpoints are held. -/
def seedLoop : List Pod → List String → List String
  | [], acc => acc
  | p :: rest, acc =>
    let acc' := acc ++ [p.status.podIP]
    if acc'.length > 2 then acc' else seedLoop rest acc'

def seedEndpointsFromPods (pods : List Pod) : List String := seedLoop pods []

/-- Server-side label selection of `remoteClient.List` with
`MatchingLabels\x7bDatacenterLabel: dc.Name\x7d` (source line 209). -/
def filterPodsByDc (pods : List Pod) (dcName : String) : List Pod :=
  pods.filter (fun p => lookupStr p.labels datacenterLabel = some dcName)

/-- `resolveSeedEndpoints` (source lines 191-226): list the pods carrying
the datacenter label, keep the first (at most three) pod IPs. -/
def resolveSeedEndpoints (env : Env) (w : World) (key : DcKey)
    (dc : CassandraDatacenter) : Option RErr × List String × List Op :=
  if env.listFails key then (some RErr.listFailed, [], [Op.list key])
  else
    (none, seedEndpointsFromPods (filterPodsByDc (w key).pods dc.metadata.name),
      [Op.list key])

/-- The concurrent-writer window between seed propagation's fetch and its
conditional patch: if `env.interfere` names a replacement for this key,
the stored resource changes under the pass's feet. -/
def applyInterfere (env : Env) (key : DcKey) (w : World) : World :=
  match env.interfere key with
  | none => w
  | some r => w.set key { resource := some r, pods := (w key).pods }

/-- `getDatacenterForTemplate` (source lines 254-268): resolve the
template's client, fetch its actual resource by key.  Any error (including
not-found) is surfaced. -/
def getDatacenterForTemplate (env : Env) (k8s : K8ssandraCluster) (w : World)
    (idx : Nat) : Except RErr (CassandraDatacenter × DcKey) × List Op :=
  match env.resolve (k8s.datacenters.getD idx default).k8sContext with
  | ResolveOutcome.failed => (Except.error RErr.resolveFailed, [])
  | ResolveOutcome.nilClient => (Except.error RErr.nilClient, [])
  | ResolveOutcome.ok =>
    if env.getFails (dcKeyForTemplate k8s idx) then
      (Except.error RErr.getFailed, [Op.get (dcKeyForTemplate k8s idx)])
    else
      match (w (dcKeyForTemplate k8s idx)).resource with
      | none =>
        (Except.error RErr.getNotFound, [Op.get (dcKeyForTemplate k8s idx)])
      | some dc =>
        (Except.ok (dc, dcKeyForTemplate k8s idx),
          [Op.get (dcKeyForTemplate k8s idx)])

/-- The object seed propagation hands to `Patch`: the fetched resource
with the seeds appended to its additional-seeds list (the nil-map guard of
source lines 245-247 is a no-op on lists). -/
def seedsPatched (dc : CassandraDatacenter) (seeds : List String) :
    CassandraDatacenter :=
  { dc with spec :=
      { dc.spec with additionalSeeds := dc.spec.additionalSeeds ++ seeds } }

/-- `updateAdditionalSeedsForDatacenter` (source lines 243-252): append the
seeds to the fetched resource's additional-seeds list and patch it back
conditionally on the resource version read at fetch time
(`MergeFromWithOptimisticLock`). A version change since the fetch rejects
the write and leaves the stored object untouched. -/
def updateAdditionalSeedsForDatacenter (w : World) (key : DcKey)
    (dc : CassandraDatacenter) (seeds : List String) :
    Option RErr × World × List Op :=
  let newDc := seedsPatched dc seeds
  match (w key).resource with
  | none => (some RErr.patchFailed, w, [Op.patch key newDc])
  | some cur =>
    if cur.metadata.resourceVersion = dc.metadata.resourceVersion then
      (none,
        w.set key
          { resource := some
              { newDc with metadata :=
                  { newDc.metadata with resourceVersion := cur.metadata.resourceVersion + 1 } }
            pods := (w key).pods },
        [Op.patch key newDc])
    else (some RErr.conflict, w, [Op.patch key newDc])

/-- Loop body of `updateAdditionalSeeds` (source lines 228-241), recursing
on the number of remaining indices so evaluation is structural. -/
def updateAdditionalSeedsAux (env : Env) (k8s : K8ssandraCluster)
    (seeds : List String) : Nat → Nat → World → Option RErr × World × List Op
  | _, 0, w => (none, w, [])
  | i, count + 1, w =>
    match getDatacenterForTemplate env k8s w i with
    | (Except.error e, ops1) => (some e, w, ops1)
    | (Except.ok (dc, key), ops1) =>
      let w1 := applyInterfere env key w
      match updateAdditionalSeedsForDatacenter w1 key dc seeds with
      | (some e, w2, ops2) => (some e, w2, ops1 ++ ops2)
      | (none, w2, ops2) =>
        let out := updateAdditionalSeedsAux env k8s seeds (i + 1) count w2
        (out.1, out.2.1, ops1 ++ ops2 ++ out.2.2)

/-- `updateAdditionalSeeds` (source lines 228-241): for each template index
in `[start, end_)`, re-fetch its actual resource and patch the seeds in,
aborting on the first error. -/
def updateAdditionalSeeds (env : Env) (k8s : K8ssandraCluster)
    (seeds : List String) (start end_ : Nat) (w : World) :
    Option RErr × World × List Op :=
  updateAdditionalSeedsAux env k8s seeds start (end_ - start) w

/-! ## The per-datacenter convergence step and the pass -/

/-- Result of one iteration of the datacenter loop.  `halt = some (res, err)`
models an early `return` from `Reconcile`; `halt = none` continues with the
accumulated `seeds` and updated `world`.  `desired` is the annotated desired
resource built at the top of the iteration (source lines 81-90), recorded so
theorems can speak about what each position was built from. -/
structure StepOut where
  halt : Option (CtrlResult × Option RErr)
  seeds : List String
  world : World
  ops : List Op
  desired : CassandraDatacenter

/-- The tail of the found-branch (source lines 117-135): readiness gate,
seed discovery, seed propagation to template indices `[0, idx)`. -/
def convergeTail (env : Env) (k8s : K8ssandraCluster) (idx : Nat)
    (seeds : List String) (w1 : World) (key : DcKey)
    (actualVar desired : CassandraDatacenter) (ops0 : List Op) : StepOut :=
  if env.isReady actualVar then
    match resolveSeedEndpoints env w1 key actualVar with
    | (some e, _, opsL) => ⟨some (⟨0⟩, some e), seeds, w1, ops0 ++ opsL, desired⟩
    | (none, endpoints, opsL) =>
      let seeds' := seeds ++ endpoints
      match updateAdditionalSeeds env k8s seeds' 0 idx w1 with
      | (some e, w2, opsP) =>
        ⟨some (⟨0⟩, some e), seeds', w2, ops0 ++ opsL ++ opsP, desired⟩
      | (none, w2, opsP) => ⟨none, seeds', w2, ops0 ++ opsL ++ opsP, desired⟩
  else ⟨some (⟨15⟩, none), seeds, w1, ops0, desired⟩

/-- One iteration of the datacenter loop (source lines 81-147): build and
fingerprint the desired resource, resolve the remote client, fetch the
actual resource; create it when absent (requeue after 15s), update it when
the stored fingerprint annotation is absent or differs (the update hands
the client the annotated desired object wholesale, as
`desired.DeepCopyInto(actual)` does), then run `convergeTail`. -/
def processTemplate (env : Env) (k8s : K8ssandraCluster)
    (cass : CassandraClusterTemplate)
    (template : CassandraDatacenterTemplateSpec) (idx : Nat)
    (seeds : List String) (w : World) : StepOut :=
  let d0 := newDatacenter k8s.metadata.ns cass.cluster template seeds
  let key : DcKey := (d0.metadata.ns, d0.metadata.name)
  let desiredHash := deepHashString env d0
  let desired :=
    { d0 with metadata :=
        { d0.metadata with anns := setStr d0.metadata.anns resourceHashKey desiredHash } }
  match env.resolve template.k8sContext with
  | ResolveOutcome.failed =>
    ⟨some (⟨0⟩, some RErr.resolveFailed), seeds, w, [], desired⟩
  | ResolveOutcome.nilClient =>
    ⟨some (⟨0⟩, some RErr.nilClient), seeds, w, [], desired⟩
  | ResolveOutcome.ok =>
    if env.getFails key then
      ⟨some (⟨0⟩, some RErr.getFailed), seeds, w, [Op.get key], desired⟩
    else
      match (w key).resource with
      | some actual =>
        if lookupStr actual.metadata.anns resourceHashKey = some desiredHash then
          convergeTail env k8s idx seeds w key actual desired [Op.get key]
        else if env.updateFails key then
          ⟨some (⟨0⟩, some RErr.updateFailed), seeds, w,
            [Op.get key, Op.update key desired], desired⟩
        else
          convergeTail env k8s idx seeds
            (World.set w key
              { resource := some
                  { desired with metadata :=
                      { desired.metadata with
                          resourceVersion := actual.metadata.resourceVersion + 1 } }
                pods := (w key).pods })
            key desired desired [Op.get key, Op.update key desired]
      | none =>
        if env.createFails key then
          ⟨some (⟨0⟩, some RErr.createFailed), seeds, w,
            [Op.get key, Op.create key desired], desired⟩
        else
          ⟨some (⟨15⟩, none), seeds,
            World.set w key
              { resource := some
                  { desired with metadata :=
                      { desired.metadata with resourceVersion := 1 } }
                pods := (w key).pods },
            [Op.get key, Op.create key desired], desired⟩

/-- Outcome of a whole pass: the `ctrl.Result`/error pair handed back to
the scheduler, the final world, the operation trace, the annotated desired
resource built at each visited position, and the seed accumulator. -/
structure PassOut where
  result : CtrlResult
  error : Option RErr
  world : World
  ops : List Op
  built : List CassandraDatacenter
  seedsOut : List String

/-- The datacenter loop of `Reconcile` (source lines 80-148). -/
def reconcileDatacenters (env : Env) (k8s : K8ssandraCluster)
    (cass : CassandraClusterTemplate) :
    List CassandraDatacenterTemplateSpec → Nat → List String → World → PassOut
  | [], _, seeds, w => ⟨⟨0⟩, none, w, [], [], seeds⟩
  | t :: rest, idx, seeds, w =>
    let st := processTemplate env k8s cass t idx seeds w
    match st.halt with
    | some (res, err) => ⟨res, err, st.world, st.ops, [st.desired], st.seeds⟩
    | none =>
      let out := reconcileDatacenters env k8s cass rest (idx + 1) st.seeds st.world
      ⟨out.result, out.error, out.world, st.ops ++ out.ops,
        st.desired :: out.built, out.seedsOut⟩

/-- `Reconcile` from the fetched cluster resource onward (source lines
75-151; the initial fetch of the cluster resource from the hub cluster is
the model's input boundary).  No Cassandra block means the loop body never
runs and the pass completes immediately. -/
def reconcile (env : Env) (w : World) (k8s : K8ssandraCluster) : PassOut :=
  match k8s.spec.cassandra with
  | none => ⟨⟨0⟩, none, w, [], [], []⟩
  | some cass => reconcileDatacenters env k8s cass cass.datacenters 0 [] w

/-! ## Basic lemmas -/

theorem base64EncodeChars_ne_nil (l : List UInt8) (h : l ≠ []) :
    base64EncodeChars l ≠ [] := by
  match l with
  | [] => exact absurd rfl h
  | [b] => simp [base64EncodeChars]
  | [b1, b2] => simp [base64EncodeChars]
  | b1 :: b2 :: b3 :: rest => simp [base64EncodeChars]

/-- The fingerprint string is never empty: the digest is 32 bytes and
base64 of a nonempty byte list is nonempty. -/
theorem deepHashString_ne_empty (env : Env) (dc : CassandraDatacenter) :
    deepHashString env dc ≠ "" := by
  unfold deepHashString base64Encode
  intro hcontra
  have h32 := (env.deepHash dc).property
  have hne : (env.deepHash dc).val ≠ [] := by
    intro h0
    rw [h0] at h32
    simp at h32
  have hchars := base64EncodeChars_ne_nil _ hne
  have hdata := congrArg String.data hcontra
  simp at hdata
  exact hchars hdata

/-- The key/metadata of a freshly built desired resource. -/
theorem newDatacenter_metadata (ns cl : String)
    (t : CassandraDatacenterTemplateSpec) (seeds : List String) :
    (newDatacenter ns cl t seeds).metadata =
      { ns := if t.meta.ns.length = 0 then ns else t.meta.ns
        name := t.meta.name
        anns := []
        resourceVersion := 0 } := rfl

/-- The annotated desired resource carries exactly the fingerprint of its
unannotated form under the well-known key. -/
theorem buildDesired_ann (env : Env) (ns cl : String)
    (t : CassandraDatacenterTemplateSpec) (seeds : List String) :
    lookupStr (buildDesired env ns cl t seeds).metadata.anns resourceHashKey =
      some (deepHashString env (newDatacenter ns cl t seeds)) := by
  simp [buildDesired, newDatacenter, setStr, lookupStr]

/-! ## Fixtures used by witnesses and counterexamples -/

def zeroDigest : Digest := ⟨List.replicate 32 0, by simp⟩

/-- A concrete quiet environment: a constant digest function, every
datacenter ready, every call succeeding, no concurrent writer. -/
def quietEnv : Env :=
  { deepHash := fun _ => zeroDigest
    isReady := fun _ => true
    resolve := fun _ => ResolveOutcome.ok
    getFails := fun _ => false
    createFails := fun _ => false
    updateFails := fun _ => false
    listFails := fun _ => false
    interfere := fun _ => none }

theorem quietEnv_is_quiet : quietEnv.quiet :=
  ⟨fun _ => rfl, fun _ => rfl, fun _ => rfl, fun _ => rfl, fun _ => rfl,
    fun _ => rfl⟩

def emptyWorld : World := fun _ => { resource := none, pods := [] }

def tplA : CassandraDatacenterTemplateSpec :=
  { meta := { ns := "", name := "dc1" }
    k8sContext := ""
    size := 3
    serverVersion := "4.0.0"
    resources := ""
    config := ""
    racks := ""
    storageConfig := "" }

def tplB : CassandraDatacenterTemplateSpec :=
  { meta := { ns := "", name := "dc2" }
    k8sContext := ""
    size := 3
    serverVersion := "4.0.0"
    resources := ""
    config := ""
    racks := ""
    storageConfig := "" }

def mkCluster (dcs : List CassandraDatacenterTemplateSpec) : K8ssandraCluster :=
  { metadata := { ns := "k8ssandra", name := "test" }
    spec :=
      { cassandra := some { cluster := "test", datacenters := dcs }
        k8sContextsSecret := "s" } }

def noCassCluster : K8ssandraCluster :=
  { metadata := { ns := "k8ssandra", name := "test" }
    spec := { cassandra := none, k8sContextsSecret := "s" } }

/-! ## C10 -/

/-- C10: if the fetched cluster resource has no Cassandra specification,
the pass performs no remote-cluster operations at all and returns the
complete-convergence outcome: done (zero requeue delay), no error, world
untouched. -/
theorem c10_no_cassandra_done (env : Env) (w : World) (k8s : K8ssandraCluster)
    (h : k8s.spec.cassandra = none) :
    reconcile env w k8s = ⟨⟨0⟩, none, w, [], [], []⟩ := by
  unfold reconcile
  rw [h]

theorem c10_witness :
    reconcile quietEnv emptyWorld noCassCluster =
      ⟨⟨0⟩, none, emptyWorld, [], [], []⟩ :=
  c10_no_cassandra_done quietEnv emptyWorld noCassCluster rfl

/-! ## C9 -/

theorem seedLoop_take (pods : List Pod) :
    ∀ acc : List String, acc.length ≤ 2 →
      seedLoop pods acc =
        acc ++ (pods.map (fun p => p.status.podIP)).take (3 - acc.length) := by
  induction pods with
  | nil => intro acc _; simp [seedLoop]
  | cons p rest ih =>
    intro acc hacc
    simp only [seedLoop, List.map_cons]
    by_cases h3 : (acc ++ [p.status.podIP]).length > 2
    · rw [if_pos h3]
      have hlen2 : acc.length = 2 := by
        simp only [List.length_append, List.length_singleton] at h3
        omega
      rw [hlen2]
      simp
    · rw [if_neg h3]
      have hlen : (acc ++ [p.status.podIP]).length ≤ 2 := by omega
      rw [ih _ hlen]
      have hle1 : acc.length ≤ 1 := by
        simp only [List.length_append, List.length_singleton] at h3
        omega
      obtain ⟨m, hm⟩ : ∃ m, 3 - acc.length = m + 1 := ⟨2 - acc.length, by omega⟩
      rw [hm, List.take_succ_cons]
      have hm2 : 3 - (acc ++ [p.status.podIP]).length = m := by
        simp only [List.length_append, List.length_singleton]
        omega
      rw [hm2]
      simp

theorem seedEndpointsFromPods_take (pods : List Pod) :
    seedEndpointsFromPods pods =
      (pods.map (fun p => p.status.podIP)).take 3 := by
  have := seedLoop_take pods [] (by simp)
  simpa [seedEndpointsFromPods] using this

/-- C9: seed discovery takes each kept pod's reported IP unconditionally:
the endpoint list is exactly the pod IPs of the first min(3, n) pods in
listing order, and a selected pod without an assigned IP contributes an
empty-string endpoint. -/
theorem c9_seed_ips_unconditional :
    (∀ pods : List Pod,
      seedEndpointsFromPods pods =
        (pods.map (fun p => p.status.podIP)).take 3) ∧
    seedEndpointsFromPods [{ labels := [], status := { podIP := "" } }] = [""] := by
  exact ⟨seedEndpointsFromPods_take, rfl⟩

/-! ## C8 -/

/-- C8: for every pod list the remote cluster returns for a ready
datacenter, seed discovery succeeds and yields at most three endpoint
addresses, each drawn (as its reported IP) from the pods selected by the
datacenter-identity label match; only the first few pods are kept no
matter how many exist. -/
theorem c8_seed_discovery_bounded (env : Env) (w : World) (key : DcKey)
    (dc : CassandraDatacenter) (h : env.listFails key = false) :
    (resolveSeedEndpoints env w key dc).1 = none ∧
    (resolveSeedEndpoints env w key dc).2.1.length ≤ 3 ∧
    (resolveSeedEndpoints env w key dc).2.1 =
      ((filterPodsByDc (w key).pods dc.metadata.name).map
        (fun p => p.status.podIP)).take 3 ∧
    ∀ e ∈ (resolveSeedEndpoints env w key dc).2.1,
      ∃ p ∈ filterPodsByDc (w key).pods dc.metadata.name,
        p.status.podIP = e := by
  have hval : (resolveSeedEndpoints env w key dc).2.1 =
      ((filterPodsByDc (w key).pods dc.metadata.name).map
        (fun p => p.status.podIP)).take 3 := by
    simp [resolveSeedEndpoints, h, seedEndpointsFromPods_take]
  refine ⟨by simp [resolveSeedEndpoints, h], ?_, hval, ?_⟩
  · rw [hval, List.length_take]
    exact min_le_left 3 _
  · intro e he
    rw [hval] at he
    have hmem := List.mem_of_mem_take he
    obtain ⟨p, hp, hip⟩ := List.mem_map.mp hmem
    exact ⟨p, hp, hip⟩

def podWithIP (dcName ip : String) : Pod :=
  { labels := [(datacenterLabel, dcName)], status := { podIP := ip } }

def c8World : World := fun k =>
  if k = ("k8ssandra", "dc1") then
    { resource := none
      pods := [podWithIP "dc1" "10.0.0.1", podWithIP "dc1" "10.0.0.2",
        podWithIP "dc1" "10.0.0.3", podWithIP "dc1" "10.0.0.4"] }
  else { resource := none, pods := [] }

def c8Dc : CassandraDatacenter :=
  { metadata := { ns := "k8ssandra", name := "dc1", anns := [], resourceVersion := 1 }
    spec := default }

theorem c8_witness :
    quietEnv.listFails ("k8ssandra", "dc1") = false ∧
    (resolveSeedEndpoints quietEnv c8World ("k8ssandra", "dc1") c8Dc).2.1.length ≤ 3 := by
  refine ⟨rfl, ?_⟩
  exact (c8_seed_discovery_bounded quietEnv c8World ("k8ssandra", "dc1") c8Dc rfl).2.1

/-! ## Lemmas about seed propagation -/

/-- Resource with its optimistic-concurrency token replaced. -/
def withRV (dc : CassandraDatacenter) (v : Nat) : CassandraDatacenter :=
  { dc with metadata := { dc.metadata with resourceVersion := v } }

theorem World.set_self (w : World) (k : DcKey) (s : RemoteState) :
    World.set w k s k = s := by
  simp [World.set]

theorem World.set_ne (w : World) (k k' : DcKey) (s : RemoteState)
    (h : k' ≠ k) : World.set w k s k' = w k' := by
  simp [World.set, h]

theorem applyInterfere_none (env : Env) (key : DcKey) (w : World)
    (h : env.interfere key = none) : applyInterfere env key w = w := by
  simp [applyInterfere, h]

theorem applyInterfere_frame (env : Env) (key k : DcKey) (w : World)
    (h : k ≠ key) : applyInterfere env key w k = w k := by
  unfold applyInterfere
  cases env.interfere key with
  | none => rfl
  | some r => exact World.set_ne w key k _ h

theorem getDatacenterForTemplate_ops (env : Env) (k8s : K8ssandraCluster)
    (w : World) (i : Nat) :
    ∀ o ∈ (getDatacenterForTemplate env k8s w i).2,
      o.key = dcKeyForTemplate k8s i := by
  unfold getDatacenterForTemplate
  cases henv : env.resolve (k8s.datacenters.getD i default).k8sContext with
  | failed => simp
  | nilClient => simp
  | ok =>
    dsimp only
    split
    · simp [Op.key]
    · split <;> simp [Op.key]

/-- Inversion: a successful fetch of template `i` returns the stored
resource under the template's computed key, with a single get op. -/
theorem getDatacenterForTemplate_ok_inv (env : Env) (k8s : K8ssandraCluster)
    (w : World) (i : Nat) (dc : CassandraDatacenter) (key : DcKey)
    (ops : List Op)
    (h : getDatacenterForTemplate env k8s w i = (Except.ok (dc, key), ops)) :
    key = dcKeyForTemplate k8s i ∧
    (w (dcKeyForTemplate k8s i)).resource = some dc ∧
    ops = [Op.get (dcKeyForTemplate k8s i)] := by
  unfold getDatacenterForTemplate at h
  cases henv : env.resolve (k8s.datacenters.getD i default).k8sContext <;>
    rw [henv] at h
  case failed => simp at h
  case nilClient => simp at h
  case ok =>
    dsimp only at h
    split at h
    · simp at h
    · split at h
      · simp at h
      · rename_i r hrr
        simp only [Prod.mk.injEq, Except.ok.injEq] at h
        obtain ⟨⟨h1, h2⟩, h3⟩ := h
        exact ⟨h2.symm, by rw [hrr, h1], h3.symm⟩

/-- Under a quiet environment, fetching template `i` whose resource exists
succeeds and returns exactly that resource under its computed key. -/
theorem getDatacenterForTemplate_quiet (env : Env) (k8s : K8ssandraCluster)
    (w : World) (i : Nat) (r : CassandraDatacenter) (hq : env.quiet)
    (hr : (w (dcKeyForTemplate k8s i)).resource = some r) :
    getDatacenterForTemplate env k8s w i =
      (Except.ok (r, dcKeyForTemplate k8s i),
        [Op.get (dcKeyForTemplate k8s i)]) := by
  unfold getDatacenterForTemplate
  rw [hq.1, hq.2.1, hr]
  rfl

theorem updateAdditionalSeedsForDatacenter_ops (w : World) (key : DcKey)
    (dc : CassandraDatacenter) (seeds : List String) :
    (updateAdditionalSeedsForDatacenter w key dc seeds).2.2 =
      [Op.patch key (seedsPatched dc seeds)] := by
  unfold updateAdditionalSeedsForDatacenter
  split
  · rfl
  · split <;> rfl

theorem updateAdditionalSeedsForDatacenter_frame (w : World) (key k : DcKey)
    (dc : CassandraDatacenter) (seeds : List String) (h : k ≠ key) :
    (updateAdditionalSeedsForDatacenter w key dc seeds).2.1 k = w k := by
  unfold updateAdditionalSeedsForDatacenter
  split
  · rfl
  · split
    · exact World.set_ne w key k _ h
    · rfl

/-- The conditional patch against the very resource just fetched (no
concurrent writer) succeeds and stores the seed-extended object with a
fresh version token. -/
theorem updateAdditionalSeedsForDatacenter_clean (w : World) (key : DcKey)
    (dc : CassandraDatacenter) (seeds : List String)
    (hr : (w key).resource = some dc) :
    updateAdditionalSeedsForDatacenter w key dc seeds =
      (none,
        World.set w key
          { resource := some
              (withRV (seedsPatched dc seeds) (dc.metadata.resourceVersion + 1))
            pods := (w key).pods },
        [Op.patch key (seedsPatched dc seeds)]) := by
  unfold updateAdditionalSeedsForDatacenter
  rw [hr]
  simp [withRV, seedsPatched]

/-- The conditional patch is rejected when the stored version token no
longer matches the fetched one, and the stored object is left untouched. -/
theorem updateAdditionalSeedsForDatacenter_conflict (w : World) (key : DcKey)
    (dc cur : CassandraDatacenter) (seeds : List String)
    (hr : (w key).resource = some cur)
    (hv : cur.metadata.resourceVersion ≠ dc.metadata.resourceVersion) :
    updateAdditionalSeedsForDatacenter w key dc seeds =
      (some RErr.conflict, w, [Op.patch key (seedsPatched dc seeds)]) := by
  unfold updateAdditionalSeedsForDatacenter
  rw [hr]
  simp [hv]

/-- Every op the propagation loop emits is addressed to a template index
in the processed range. -/
theorem updateAdditionalSeedsAux_op_keys (env : Env) (k8s : K8ssandraCluster)
    (seeds : List String) :
    ∀ count i w, ∀ o ∈ (updateAdditionalSeedsAux env k8s seeds i count w).2.2,
      ∃ j, i ≤ j ∧ j < i + count ∧ o.key = dcKeyForTemplate k8s j := by
  intro count
  induction count with
  | zero => intro i w o ho; simp [updateAdditionalSeedsAux] at ho
  | succ c ih =>
    intro i w o ho
    rw [updateAdditionalSeedsAux] at ho
    rcases hg : getDatacenterForTemplate env k8s w i with ⟨res, ops1⟩
    rw [hg] at ho
    have hops1 : ∀ o ∈ ops1, Op.key o = dcKeyForTemplate k8s i := by
      intro o ho1
      have := getDatacenterForTemplate_ops env k8s w i o
      rw [hg] at this
      exact this ho1
    cases res with
    | error e =>
      simp only at ho
      exact ⟨i, le_refl i, by omega, hops1 o ho⟩
    | ok p =>
      rcases p with ⟨dc, key⟩
      have hkey : key = dcKeyForTemplate k8s i :=
        (getDatacenterForTemplate_ok_inv env k8s w i dc key ops1 hg).1
      subst hkey
      simp only at ho
      rcases hu : updateAdditionalSeedsForDatacenter
          (applyInterfere env (dcKeyForTemplate k8s i) w)
          (dcKeyForTemplate k8s i) dc seeds with ⟨err2, w2, ops2⟩
      rw [hu] at ho
      have hops2 : ops2 = [Op.patch (dcKeyForTemplate k8s i) (seedsPatched dc seeds)] := by
        have := updateAdditionalSeedsForDatacenter_ops
          (applyInterfere env (dcKeyForTemplate k8s i) w)
          (dcKeyForTemplate k8s i) dc seeds
        rw [hu] at this
        exact this
      cases err2 with
      | some e =>
        simp only at ho
        rcases List.mem_append.mp ho with h1 | h2
        · exact ⟨i, le_refl i, by omega, hops1 o h1⟩
        · rw [hops2] at h2
          simp at h2
          exact ⟨i, le_refl i, by omega, by rw [h2]; rfl⟩
      | none =>
        simp only at ho
        rcases List.mem_append.mp ho with h1 | h2
        · rcases List.mem_append.mp h1 with h1a | h1b
          · exact ⟨i, le_refl i, by omega, hops1 o h1a⟩
          · rw [hops2] at h1b
            simp at h1b
            exact ⟨i, le_refl i, by omega, by rw [h1b]; rfl⟩
        · rcases ih (i + 1) w2 o h2 with ⟨j, hj1, hj2, hj3⟩
          exact ⟨j, by omega, by omega, hj3⟩

/-- The propagation loop leaves every key outside its index range
untouched, whatever faults occur. -/
theorem updateAdditionalSeedsAux_frame (env : Env) (k8s : K8ssandraCluster)
    (seeds : List String) :
    ∀ count i w k,
      (∀ j, i ≤ j → j < i + count → dcKeyForTemplate k8s j ≠ k) →
      (updateAdditionalSeedsAux env k8s seeds i count w).2.1 k = w k := by
  intro count
  induction count with
  | zero => intro i w k _; simp [updateAdditionalSeedsAux]
  | succ c ih =>
    intro i w k hk
    rw [updateAdditionalSeedsAux]
    rcases hg : getDatacenterForTemplate env k8s w i with ⟨res, ops1⟩
    cases res with
    | error e => dsimp only
    | ok p =>
      rcases p with ⟨dc, key⟩
      have hkey := (getDatacenterForTemplate_ok_inv env k8s w i dc key ops1 hg).1
      subst hkey
      dsimp only
      have hki : dcKeyForTemplate k8s i ≠ k := hk i (le_refl i) (by omega)
      have hw1 : applyInterfere env (dcKeyForTemplate k8s i) w k = w k :=
        applyInterfere_frame env _ k w (Ne.symm hki)
      rcases hu : updateAdditionalSeedsForDatacenter
          (applyInterfere env (dcKeyForTemplate k8s i) w)
          (dcKeyForTemplate k8s i) dc seeds with ⟨err2, w2, ops2⟩
      have hw2 : w2 k = w k := by
        have hfr := updateAdditionalSeedsForDatacenter_frame
          (applyInterfere env (dcKeyForTemplate k8s i) w)
          (dcKeyForTemplate k8s i) k dc seeds (Ne.symm hki)
        rw [hu] at hfr
        dsimp only at hfr
        rw [hfr, hw1]
      cases err2 with
      | some e => exact hw2
      | none =>
        dsimp only
        rw [ih (i + 1) w2 k (fun j hj1 hj2 => hk j (by omega) (by omega)), hw2]

/-- Quiet-environment characterization of the propagation loop over a
range of existing, pairwise-distinct datacenters: it succeeds, each index
in the range is patched with the seeds appended to its stored list and a
bumped version token, and its patch op appears in the trace. -/
theorem updateAdditionalSeedsAux_quiet (env : Env) (k8s : K8ssandraCluster)
    (seeds : List String) (hq : env.quiet) :
    ∀ count i w,
      (∀ j, i ≤ j → j < i + count →
        ∃ r, (w (dcKeyForTemplate k8s j)).resource = some r) →
      (∀ j l, i ≤ j → j < i + count → i ≤ l → l < i + count → j ≠ l →
        dcKeyForTemplate k8s j ≠ dcKeyForTemplate k8s l) →
      (updateAdditionalSeedsAux env k8s seeds i count w).1 = none ∧
      (∀ j, i ≤ j → j < i + count →
        ∃ r, (w (dcKeyForTemplate k8s j)).resource = some r ∧
          Op.patch (dcKeyForTemplate k8s j) (seedsPatched r seeds) ∈
            (updateAdditionalSeedsAux env k8s seeds i count w).2.2 ∧
          ((updateAdditionalSeedsAux env k8s seeds i count w).2.1
              (dcKeyForTemplate k8s j)).resource =
            some (withRV (seedsPatched r seeds)
              (r.metadata.resourceVersion + 1))) := by
  intro count
  induction count with
  | zero =>
    intro i w _ _
    refine ⟨rfl, fun j hj1 hj2 => absurd hj2 (by omega)⟩
  | succ c ih =>
    intro i w hex hdist
    obtain ⟨r, hr⟩ := hex i (le_refl i) (by omega)
    have hg := getDatacenterForTemplate_quiet env k8s w i r hq hr
    have hint : applyInterfere env (dcKeyForTemplate k8s i) w = w :=
      applyInterfere_none env _ w (hq.2.2.2.2.2 _)
    have hu := updateAdditionalSeedsForDatacenter_clean w
      (dcKeyForTemplate k8s i) r seeds hr
    rw [updateAdditionalSeedsAux, hg]
    dsimp only
    rw [hint, hu]
    dsimp only
    set w2 : World := World.set w (dcKeyForTemplate k8s i)
      { resource := some (withRV (seedsPatched r seeds)
          (r.metadata.resourceVersion + 1))
        pods := (w (dcKeyForTemplate k8s i)).pods } with hw2def
    have hex2 : ∀ j, i + 1 ≤ j → j < i + 1 + c →
        ∃ r', (w2 (dcKeyForTemplate k8s j)).resource = some r' := by
      intro j hj1 hj2
      obtain ⟨r', hr'⟩ := hex j (by omega) (by omega)
      refine ⟨r', ?_⟩
      rw [hw2def, World.set_ne]
      · exact hr'
      · exact hdist j i (by omega) (by omega) (le_refl i) (by omega) (by omega)
    have hdist2 : ∀ j l, i + 1 ≤ j → j < i + 1 + c → i + 1 ≤ l →
        l < i + 1 + c → j ≠ l →
        dcKeyForTemplate k8s j ≠ dcKeyForTemplate k8s l := by
      intro j l hj1 hj2 hl1 hl2 hne
      exact hdist j l (by omega) (by omega) (by omega) (by omega) hne
    obtain ⟨hnone, hall⟩ := ih (i + 1) w2 hex2 hdist2
    refine ⟨hnone, ?_⟩
    intro j hj1 hj2
    by_cases hji : j = i
    · subst hji
      refine ⟨r, hr, ?_, ?_⟩
      · simp
      · have hfr := updateAdditionalSeedsAux_frame env k8s seeds c (j + 1) w2
          (dcKeyForTemplate k8s j) ?_
        · rw [hfr, hw2def, World.set_self]
        · intro l hl1 hl2
          exact hdist l j (by omega) (by omega) (le_refl j) (by omega) (by omega)
    · obtain ⟨r', hr', hmem, hres⟩ := hall j (by omega) (by omega)
      have hrw : (w2 (dcKeyForTemplate k8s j)).resource =
          (w (dcKeyForTemplate k8s j)).resource := by
        rw [hw2def, World.set_ne]
        exact hdist j i (by omega) (by omega) (le_refl i) (by omega) hji
      refine ⟨r', by rwa [← hrw], ?_, hres⟩
      simp only [List.mem_append]
      right
      exact hmem

/-! ## C4 -/

/-- C4: when the datacenter at index `i` becomes ready and the propagation
step runs with the accumulated seeds, exactly the datacenters at indices in
`[0, i)` receive an additional-seeds patch containing those seeds (appended
to their stored list), every op the step emits is addressed to one of those
indices, and any key outside them — in particular index `i`'s own and any
later datacenter's (their keys being distinct) — is left untouched. -/
theorem c4_propagation_exact_range (env : Env) (k8s : K8ssandraCluster)
    (seeds : List String) (i : Nat) (w : World) (hq : env.quiet)
    (hex : ∀ j, j < i → ∃ r, (w (dcKeyForTemplate k8s j)).resource = some r)
    (hdist : ∀ j l, j < i → l < i → j ≠ l →
      dcKeyForTemplate k8s j ≠ dcKeyForTemplate k8s l) :
    (updateAdditionalSeeds env k8s seeds 0 i w).1 = none ∧
    (∀ j, j < i → ∃ r, (w (dcKeyForTemplate k8s j)).resource = some r ∧
      Op.patch (dcKeyForTemplate k8s j) (seedsPatched r seeds) ∈
        (updateAdditionalSeeds env k8s seeds 0 i w).2.2 ∧
      (seedsPatched r seeds).spec.additionalSeeds =
        r.spec.additionalSeeds ++ seeds ∧
      ((updateAdditionalSeeds env k8s seeds 0 i w).2.1
          (dcKeyForTemplate k8s j)).resource =
        some (withRV (seedsPatched r seeds) (r.metadata.resourceVersion + 1))) ∧
    (∀ o ∈ (updateAdditionalSeeds env k8s seeds 0 i w).2.2,
      ∃ j, j < i ∧ o.key = dcKeyForTemplate k8s j) ∧
    (∀ k, (∀ j, j < i → dcKeyForTemplate k8s j ≠ k) →
      (updateAdditionalSeeds env k8s seeds 0 i w).2.1 k = w k) := by
  unfold updateAdditionalSeeds
  rw [Nat.sub_zero]
  obtain ⟨hnone, hall⟩ := updateAdditionalSeedsAux_quiet env k8s seeds hq i 0 w
    (fun j _ hj2 => hex j (by omega))
    (fun j l _ hj2 _ hl2 hne => hdist j l (by omega) (by omega) hne)
  refine ⟨hnone, ?_, ?_, ?_⟩
  · intro j hj
    obtain ⟨r, h1, h2, h3⟩ := hall j (by omega) (by omega)
    exact ⟨r, h1, h2, rfl, h3⟩
  · intro o ho
    obtain ⟨j, _, hj2, hj3⟩ :=
      updateAdditionalSeedsAux_op_keys env k8s seeds i 0 w o ho
    exact ⟨j, by omega, hj3⟩
  · intro k hk
    exact updateAdditionalSeedsAux_frame env k8s seeds i 0 w k
      (fun j _ hj2 => hk j (by omega))

def plainDc (name : String) (rv : Nat) : CassandraDatacenter :=
  { metadata :=
      { ns := "k8ssandra", name := name, anns := [], resourceVersion := rv }
    spec := default }

def tplC : CassandraDatacenterTemplateSpec :=
  { meta := { ns := "", name := "dc3" }
    k8sContext := ""
    size := 3
    serverVersion := "4.0.0"
    resources := ""
    config := ""
    racks := ""
    storageConfig := "" }

def c4World : World := fun k =>
  if k = ("k8ssandra", "dc1") then { resource := some (plainDc "dc1" 5), pods := [] }
  else if k = ("k8ssandra", "dc2") then { resource := some (plainDc "dc2" 7), pods := [] }
  else { resource := none, pods := [] }

theorem c4_witness :
    (updateAdditionalSeeds quietEnv (mkCluster [tplA, tplB, tplC])
      ["10.0.0.1"] 0 2 c4World).1 = none := by
  refine (c4_propagation_exact_range quietEnv (mkCluster [tplA, tplB, tplC])
    ["10.0.0.1"] 2 c4World quietEnv_is_quiet ?_ ?_).1
  · intro j hj
    interval_cases j
    · exact ⟨plainDc "dc1" 5, by decide⟩
    · exact ⟨plainDc "dc2" 7, by decide⟩
  · intro j l hj hl hne
    interval_cases j <;> interval_cases l <;> first | omega | decide

/-! ## C5 -/

/-- C5: if a concurrent writer replaces an earlier datacenter's resource
(changing its version token) between seed propagation's fetch and its
conditional write, the patch is rejected with a conflict error that is
surfaced to the caller, the loop aborts at that index without retrying
(the trace holds exactly one get and one rejected patch), and the
concurrent writer's object — not the pass's seed-extended one — remains
stored. -/
theorem c5_conflict_aborts (env : Env) (k8s : K8ssandraCluster)
    (seeds : List String) (i : Nat) (w : World)
    (r0 rNew : CassandraDatacenter) (hi : 1 ≤ i)
    (hres : env.resolve ((k8s.datacenters.getD 0 default).k8sContext) =
      ResolveOutcome.ok)
    (hget : env.getFails (dcKeyForTemplate k8s 0) = false)
    (hr : (w (dcKeyForTemplate k8s 0)).resource = some r0)
    (hint : env.interfere (dcKeyForTemplate k8s 0) = some rNew)
    (hv : rNew.metadata.resourceVersion ≠ r0.metadata.resourceVersion) :
    updateAdditionalSeeds env k8s seeds 0 i w =
      (some RErr.conflict,
        World.set w (dcKeyForTemplate k8s 0)
          { resource := some rNew, pods := (w (dcKeyForTemplate k8s 0)).pods },
        [Op.get (dcKeyForTemplate k8s 0),
          Op.patch (dcKeyForTemplate k8s 0) (seedsPatched r0 seeds)]) ∧
    ((updateAdditionalSeeds env k8s seeds 0 i w).2.1
        (dcKeyForTemplate k8s 0)).resource = some rNew := by
  have hg : getDatacenterForTemplate env k8s w 0 =
      (Except.ok (r0, dcKeyForTemplate k8s 0),
        [Op.get (dcKeyForTemplate k8s 0)]) := by
    unfold getDatacenterForTemplate
    rw [hres, hget, hr]
    rfl
  have happly : applyInterfere env (dcKeyForTemplate k8s 0) w =
      World.set w (dcKeyForTemplate k8s 0)
        { resource := some rNew, pods := (w (dcKeyForTemplate k8s 0)).pods } := by
    unfold applyInterfere
    rw [hint]
  have hconf := updateAdditionalSeedsForDatacenter_conflict
    (World.set w (dcKeyForTemplate k8s 0)
      { resource := some rNew, pods := (w (dcKeyForTemplate k8s 0)).pods })
    (dcKeyForTemplate k8s 0) r0 rNew seeds (by rw [World.set_self]) hv
  obtain ⟨c, rfl⟩ : ∃ c, i = c + 1 := ⟨i - 1, by omega⟩
  have hmain : updateAdditionalSeeds env k8s seeds 0 (c + 1) w =
      (some RErr.conflict,
        World.set w (dcKeyForTemplate k8s 0)
          { resource := some rNew, pods := (w (dcKeyForTemplate k8s 0)).pods },
        [Op.get (dcKeyForTemplate k8s 0),
          Op.patch (dcKeyForTemplate k8s 0) (seedsPatched r0 seeds)]) := by
    unfold updateAdditionalSeeds
    rw [Nat.sub_zero, updateAdditionalSeedsAux, hg]
    dsimp only
    rw [happly, hconf]
    rfl
  refine ⟨hmain, ?_⟩
  rw [hmain]
  dsimp only
  rw [World.set_self]

def c5Env : Env :=
  { quietEnv with interfere := fun k =>
      if k = ("k8ssandra", "dc1") then some (plainDc "dc1" 9) else none }

theorem c5_witness :
    (updateAdditionalSeeds c5Env (mkCluster [tplA, tplB]) ["10.0.0.9"] 0 1
      c4World).1 = some RErr.conflict := by
  have h := c5_conflict_aborts c5Env (mkCluster [tplA, tplB]) ["10.0.0.9"] 1
    c4World (plainDc "dc1" 5) (plainDc "dc1" 9) (by omega) rfl rfl
    (by decide) (by decide) (by decide)
  rw [h.1]

/-! ## Branch lemmas for the per-datacenter step -/

/-- The convergence loop addresses a template's datacenter under
`templateKey`. -/
theorem newDatacenter_key (k8s : K8ssandraCluster) (cl : String)
    (t : CassandraDatacenterTemplateSpec) (seeds : List String) :
    ((newDatacenter k8s.metadata.ns cl t seeds).metadata.ns,
      (newDatacenter k8s.metadata.ns cl t seeds).metadata.name) =
      templateKey k8s t := rfl

theorem resolveSeedEndpoints_clean (env : Env) (w : World) (key : DcKey)
    (dc : CassandraDatacenter) (h : env.listFails key = false) :
    resolveSeedEndpoints env w key dc =
      (none, seedEndpointsFromPods (filterPodsByDc (w key).pods dc.metadata.name),
        [Op.list key]) := by
  unfold resolveSeedEndpoints
  rw [h]
  rfl

theorem convergeTail_notReady (env : Env) (k8s : K8ssandraCluster)
    (idx : Nat) (seeds : List String) (w1 : World) (key : DcKey)
    (actual desired : CassandraDatacenter) (ops0 : List Op)
    (h : env.isReady actual = false) :
    convergeTail env k8s idx seeds w1 key actual desired ops0 =
      ⟨some (⟨15⟩, none), seeds, w1, ops0, desired⟩ := by
  unfold convergeTail
  rw [h]
  rfl

theorem convergeTail_ready_ok (env : Env) (k8s : K8ssandraCluster)
    (idx : Nat) (seeds : List String) (w1 w2 : World) (key : DcKey)
    (actual desired : CassandraDatacenter) (ops0 opsP : List Op)
    (hready : env.isReady actual = true)
    (hlist : env.listFails key = false)
    (hprop : updateAdditionalSeeds env k8s
        (seeds ++ seedEndpointsFromPods (filterPodsByDc (w1 key).pods
          actual.metadata.name)) 0 idx w1 = (none, w2, opsP)) :
    convergeTail env k8s idx seeds w1 key actual desired ops0 =
      ⟨none,
        seeds ++ seedEndpointsFromPods (filterPodsByDc (w1 key).pods
          actual.metadata.name),
        w2, ops0 ++ [Op.list key] ++ opsP, desired⟩ := by
  unfold convergeTail
  rw [hready, resolveSeedEndpoints_clean env w1 key actual hlist]
  dsimp only
  rw [hprop]
  rfl

theorem convergeTail_ready_err (env : Env) (k8s : K8ssandraCluster)
    (idx : Nat) (seeds : List String) (w1 w2 : World) (key : DcKey)
    (actual desired : CassandraDatacenter) (ops0 opsP : List Op) (e : RErr)
    (hready : env.isReady actual = true)
    (hlist : env.listFails key = false)
    (hprop : updateAdditionalSeeds env k8s
        (seeds ++ seedEndpointsFromPods (filterPodsByDc (w1 key).pods
          actual.metadata.name)) 0 idx w1 = (some e, w2, opsP)) :
    convergeTail env k8s idx seeds w1 key actual desired ops0 =
      ⟨some (⟨0⟩, some e),
        seeds ++ seedEndpointsFromPods (filterPodsByDc (w1 key).pods
          actual.metadata.name),
        w2, ops0 ++ [Op.list key] ++ opsP, desired⟩ := by
  unfold convergeTail
  rw [hready, resolveSeedEndpoints_clean env w1 key actual hlist]
  dsimp only
  rw [hprop]
  rfl

/-- Not-found branch of the step (source lines 137-142): create the
annotated desired resource and halt the pass with a 15-second requeue. -/
theorem processTemplate_absent (env : Env) (k8s : K8ssandraCluster)
    (cass : CassandraClusterTemplate) (t : CassandraDatacenterTemplateSpec)
    (idx : Nat) (seeds : List String) (w : World)
    (hres : env.resolve t.k8sContext = ResolveOutcome.ok)
    (hget : env.getFails (templateKey k8s t) = false)
    (hcreate : env.createFails (templateKey k8s t) = false)
    (habsent : (w (templateKey k8s t)).resource = none) :
    processTemplate env k8s cass t idx seeds w =
      ⟨some (⟨15⟩, none), seeds,
        World.set w (templateKey k8s t)
          { resource := some
              (withRV (buildDesired env k8s.metadata.ns cass.cluster t seeds) 1)
            pods := (w (templateKey k8s t)).pods },
        [Op.get (templateKey k8s t),
          Op.create (templateKey k8s t)
            (buildDesired env k8s.metadata.ns cass.cluster t seeds)],
        buildDesired env k8s.metadata.ns cass.cluster t seeds⟩ := by
  simp only [processTemplate]
  rw [newDatacenter_key k8s cass.cluster t seeds, hres]
  dsimp only
  rw [hget, habsent, hcreate]
  rfl

/-- Found branch, fingerprint hit (source line 106, condition true):
no update is issued; the tail runs on the fetched actual resource. -/
theorem processTemplate_found_hit (env : Env) (k8s : K8ssandraCluster)
    (cass : CassandraClusterTemplate) (t : CassandraDatacenterTemplateSpec)
    (idx : Nat) (seeds : List String) (w : World)
    (actual : CassandraDatacenter)
    (hres : env.resolve t.k8sContext = ResolveOutcome.ok)
    (hget : env.getFails (templateKey k8s t) = false)
    (hfound : (w (templateKey k8s t)).resource = some actual)
    (hmatch : lookupStr actual.metadata.anns resourceHashKey =
      some (deepHashString env
        (newDatacenter k8s.metadata.ns cass.cluster t seeds))) :
    processTemplate env k8s cass t idx seeds w =
      convergeTail env k8s idx seeds w (templateKey k8s t) actual
        (buildDesired env k8s.metadata.ns cass.cluster t seeds)
        [Op.get (templateKey k8s t)] := by
  simp only [processTemplate]
  rw [newDatacenter_key k8s cass.cluster t seeds, hres]
  dsimp only
  rw [hget, hfound]
  dsimp only
  rw [if_pos hmatch]
  rfl

/-- Found branch, fingerprint miss (source lines 106-115): the step hands
the client the annotated desired object wholesale as an update, the store
keeps it under a bumped version token, and the tail runs on the desired
object (the in-memory actual was overwritten by `DeepCopyInto`). -/
theorem processTemplate_found_miss (env : Env) (k8s : K8ssandraCluster)
    (cass : CassandraClusterTemplate) (t : CassandraDatacenterTemplateSpec)
    (idx : Nat) (seeds : List String) (w : World)
    (actual : CassandraDatacenter)
    (hres : env.resolve t.k8sContext = ResolveOutcome.ok)
    (hget : env.getFails (templateKey k8s t) = false)
    (hfound : (w (templateKey k8s t)).resource = some actual)
    (hmiss : lookupStr actual.metadata.anns resourceHashKey ≠
      some (deepHashString env
        (newDatacenter k8s.metadata.ns cass.cluster t seeds)))
    (hupd : env.updateFails (templateKey k8s t) = false) :
    processTemplate env k8s cass t idx seeds w =
      convergeTail env k8s idx seeds
        (World.set w (templateKey k8s t)
          { resource := some
              (withRV (buildDesired env k8s.metadata.ns cass.cluster t seeds)
                (actual.metadata.resourceVersion + 1))
            pods := (w (templateKey k8s t)).pods })
        (templateKey k8s t)
        (buildDesired env k8s.metadata.ns cass.cluster t seeds)
        (buildDesired env k8s.metadata.ns cass.cluster t seeds)
        [Op.get (templateKey k8s t),
          Op.update (templateKey k8s t)
            (buildDesired env k8s.metadata.ns cass.cluster t seeds)] := by
  simp only [processTemplate]
  rw [newDatacenter_key k8s cass.cluster t seeds, hres]
  dsimp only
  rw [hget, hfound]
  dsimp only
  rw [if_neg hmiss, hupd]
  rfl

/-- Unfolding of the datacenter loop when the head iteration halts. -/
theorem reconcileDatacenters_cons_halt (env : Env) (k8s : K8ssandraCluster)
    (cass : CassandraClusterTemplate) (t : CassandraDatacenterTemplateSpec)
    (rest : List CassandraDatacenterTemplateSpec) (idx : Nat)
    (seeds : List String) (w : World) (res : CtrlResult) (err : Option RErr)
    (h : (processTemplate env k8s cass t idx seeds w).halt = some (res, err)) :
    reconcileDatacenters env k8s cass (t :: rest) idx seeds w =
      ⟨res, err, (processTemplate env k8s cass t idx seeds w).world,
        (processTemplate env k8s cass t idx seeds w).ops,
        [(processTemplate env k8s cass t idx seeds w).desired],
        (processTemplate env k8s cass t idx seeds w).seeds⟩ := by
  simp only [reconcileDatacenters]
  rw [h]

/-- Unfolding of the datacenter loop when the head iteration continues. -/
theorem reconcileDatacenters_cons_cont (env : Env) (k8s : K8ssandraCluster)
    (cass : CassandraClusterTemplate) (t : CassandraDatacenterTemplateSpec)
    (rest : List CassandraDatacenterTemplateSpec) (idx : Nat)
    (seeds : List String) (w : World)
    (h : (processTemplate env k8s cass t idx seeds w).halt = none) :
    reconcileDatacenters env k8s cass (t :: rest) idx seeds w =
      { result := (reconcileDatacenters env k8s cass rest (idx + 1)
          (processTemplate env k8s cass t idx seeds w).seeds
          (processTemplate env k8s cass t idx seeds w).world).result
        error := (reconcileDatacenters env k8s cass rest (idx + 1)
          (processTemplate env k8s cass t idx seeds w).seeds
          (processTemplate env k8s cass t idx seeds w).world).error
        world := (reconcileDatacenters env k8s cass rest (idx + 1)
          (processTemplate env k8s cass t idx seeds w).seeds
          (processTemplate env k8s cass t idx seeds w).world).world
        ops := (processTemplate env k8s cass t idx seeds w).ops ++
          (reconcileDatacenters env k8s cass rest (idx + 1)
            (processTemplate env k8s cass t idx seeds w).seeds
            (processTemplate env k8s cass t idx seeds w).world).ops
        built := (processTemplate env k8s cass t idx seeds w).desired ::
          (reconcileDatacenters env k8s cass rest (idx + 1)
            (processTemplate env k8s cass t idx seeds w).seeds
            (processTemplate env k8s cass t idx seeds w).world).built
        seedsOut := (reconcileDatacenters env k8s cass rest (idx + 1)
          (processTemplate env k8s cass t idx seeds w).seeds
          (processTemplate env k8s cass t idx seeds w).world).seedsOut } := by
  simp only [reconcileDatacenters]
  rw [h]

theorem Op.isWriteTo_false_of_key_ne (o : Op) (k : DcKey) (h : o.key ≠ k) :
    o.isWriteTo k = false := by
  cases o <;> simp [Op.key] at h <;> simp [Op.isWriteTo, h]

theorem resolveSeedEndpoints_ops (env : Env) (w : World) (key : DcKey)
    (dc : CassandraDatacenter) :
    (resolveSeedEndpoints env w key dc).2.2 = [Op.list key] := by
  unfold resolveSeedEndpoints
  split <;> rfl

theorem convergeTail_desired (env : Env) (k8s : K8ssandraCluster) (idx : Nat)
    (seeds : List String) (w1 : World) (key : DcKey)
    (actual desired : CassandraDatacenter) (ops0 : List Op) :
    (convergeTail env k8s idx seeds w1 key actual desired ops0).desired =
      desired := by
  unfold convergeTail
  split
  · rcases hse : resolveSeedEndpoints env w1 key actual with ⟨eo, eps, opsL⟩
    cases eo with
    | some e => rfl
    | none =>
      dsimp only
      rcases hup : updateAdditionalSeeds env k8s (seeds ++ eps) 0 idx w1
        with ⟨eo2, w2, opsP⟩
      cases eo2 <;> rfl
  · rfl

theorem processTemplate_desired (env : Env) (k8s : K8ssandraCluster)
    (cass : CassandraClusterTemplate) (t : CassandraDatacenterTemplateSpec)
    (idx : Nat) (seeds : List String) (w : World) :
    (processTemplate env k8s cass t idx seeds w).desired =
      buildDesired env k8s.metadata.ns cass.cluster t seeds := by
  simp only [processTemplate]
  cases henv : env.resolve t.k8sContext
  · dsimp only
    split
    · rfl
    · split
      · split
        · rw [convergeTail_desired]
          rfl
        · split
          · rfl
          · rw [convergeTail_desired]
            rfl
      · split <;> rfl
  · rfl
  · rfl

/-- The tail prepends the iteration's earlier ops to whatever it emits. -/
theorem convergeTail_ops_suffix (env : Env) (k8s : K8ssandraCluster)
    (idx : Nat) (seeds : List String) (w1 : World) (key : DcKey)
    (actual desired : CassandraDatacenter) (ops0 : List Op) :
    ∃ suffix,
      (convergeTail env k8s idx seeds w1 key actual desired ops0).ops =
        ops0 ++ suffix := by
  unfold convergeTail
  split
  · rcases hse : resolveSeedEndpoints env w1 key actual with ⟨eo, eps, opsL⟩
    cases eo with
    | some e => exact ⟨opsL, rfl⟩
    | none =>
      dsimp only
      rcases hup : updateAdditionalSeeds env k8s (seeds ++ eps) 0 idx w1
        with ⟨eo2, w2, opsP⟩
      cases eo2 with
      | some e => exact ⟨opsL ++ opsP, by simp⟩
      | none => exact ⟨opsL ++ opsP, by simp⟩
  · exact ⟨[], by simp⟩

/-- Through the tail, the world at a key none of the earlier template
indices address is exactly as the tail received it. -/
theorem convergeTail_world_key (env : Env) (k8s : K8ssandraCluster)
    (idx : Nat) (seeds : List String) (w1 : World) (key : DcKey)
    (actual desired : CassandraDatacenter) (ops0 : List Op)
    (hkeys : ∀ j, j < idx → dcKeyForTemplate k8s j ≠ key) :
    (convergeTail env k8s idx seeds w1 key actual desired ops0).world key =
      w1 key := by
  unfold convergeTail
  split
  · rcases hse : resolveSeedEndpoints env w1 key actual with ⟨eo, eps, opsL⟩
    cases eo with
    | some e => rfl
    | none =>
      dsimp only
      rcases hup : updateAdditionalSeeds env k8s (seeds ++ eps) 0 idx w1
        with ⟨eo2, w2, opsP⟩
      have hfr : (updateAdditionalSeeds env k8s (seeds ++ eps) 0 idx w1).2.1 key
          = w1 key := by
        unfold updateAdditionalSeeds
        rw [Nat.sub_zero]
        exact updateAdditionalSeedsAux_frame env k8s (seeds ++ eps) idx 0 w1 key
          (fun j _ hj2 => hkeys j (by omega))
      rw [hup] at hfr
      cases eo2 <;> exact hfr
  · rfl

/-- No op the tail emits is a write to a key distinct from every earlier
template's key, provided the ops it was handed are not. -/
theorem convergeTail_no_writes (env : Env) (k8s : K8ssandraCluster)
    (idx : Nat) (seeds : List String) (w1 : World) (key : DcKey)
    (actual desired : CassandraDatacenter) (ops0 : List Op)
    (hops0 : ∀ o ∈ ops0, o.isWriteTo key = false)
    (hkeys : ∀ j, j < idx → dcKeyForTemplate k8s j ≠ key) :
    ∀ o ∈ (convergeTail env k8s idx seeds w1 key actual desired ops0).ops,
      o.isWriteTo key = false := by
  unfold convergeTail
  split
  · rcases hse : resolveSeedEndpoints env w1 key actual with ⟨eo, eps, opsL⟩
    have hopsLeq : opsL = [Op.list key] := by
      have h2 := resolveSeedEndpoints_ops env w1 key actual
      rw [hse] at h2
      exact h2
    have hopsL : ∀ o ∈ opsL, o.isWriteTo key = false := by
      intro o ho
      rw [hopsLeq] at ho
      simp at ho
      rw [ho]
      rfl
    cases eo with
    | some e =>
      intro o ho
      rcases List.mem_append.mp ho with h | h
      · exact hops0 o h
      · exact hopsL o h
    | none =>
      dsimp only
      rcases hup : updateAdditionalSeeds env k8s (seeds ++ eps) 0 idx w1
        with ⟨eo2, w2, opsP⟩
      have hopsP : ∀ o ∈ opsP, o.isWriteTo key = false := by
        have hopk : ∀ o ∈ (updateAdditionalSeeds env k8s (seeds ++ eps) 0 idx
            w1).2.2, ∃ j, j < idx ∧ o.key = dcKeyForTemplate k8s j := by
          intro o' ho'
          unfold updateAdditionalSeeds at ho'
          rw [Nat.sub_zero] at ho'
          obtain ⟨j, _, hj2, hj3⟩ :=
            updateAdditionalSeedsAux_op_keys env k8s (seeds ++ eps) idx 0 w1 o' ho'
          exact ⟨j, by omega, hj3⟩
        rw [hup] at hopk
        intro o ho
        obtain ⟨j, hj, hjk⟩ := hopk o ho
        exact Op.isWriteTo_false_of_key_ne o key (by rw [hjk]; exact hkeys j hj)
      cases eo2 with
      | some e =>
        intro o ho
        rcases List.mem_append.mp ho with h | h
        · rcases List.mem_append.mp h with h1 | h2
          · exact hops0 o h1
          · exact hopsL o h2
        · exact hopsP o h
      | none =>
        intro o ho
        rcases List.mem_append.mp ho with h | h
        · rcases List.mem_append.mp h with h1 | h2
          · exact hops0 o h1
          · exact hopsL o h2
        · exact hopsP o h
  · exact hops0

/-! ## C6 -/

/-- C6: when the actual resource for a datacenter is not found on the
remote cluster, the pass creates the desired resource there — carrying the
fingerprint annotation with a non-empty digest, `size` and `serverVersion`
taken from the template, and host-network networking enabled — then stops
processing (no further templates are visited) and returns a positive
retry-after result with no error. -/
theorem c6_absent_creates_then_requeues (env : Env) (k8s : K8ssandraCluster)
    (cass : CassandraClusterTemplate) (t : CassandraDatacenterTemplateSpec)
    (rest : List CassandraDatacenterTemplateSpec) (idx : Nat)
    (seeds : List String) (w : World)
    (hres : env.resolve t.k8sContext = ResolveOutcome.ok)
    (hget : env.getFails (templateKey k8s t) = false)
    (hcreate : env.createFails (templateKey k8s t) = false)
    (habsent : (w (templateKey k8s t)).resource = none) :
    reconcileDatacenters env k8s cass (t :: rest) idx seeds w =
      ⟨⟨15⟩, none,
        World.set w (templateKey k8s t)
          { resource := some
              (withRV (buildDesired env k8s.metadata.ns cass.cluster t seeds) 1)
            pods := (w (templateKey k8s t)).pods },
        [Op.get (templateKey k8s t),
          Op.create (templateKey k8s t)
            (buildDesired env k8s.metadata.ns cass.cluster t seeds)],
        [buildDesired env k8s.metadata.ns cass.cluster t seeds], seeds⟩ ∧
    lookupStr (buildDesired env k8s.metadata.ns cass.cluster t
        seeds).metadata.anns resourceHashKey =
      some (deepHashString env
        (newDatacenter k8s.metadata.ns cass.cluster t seeds)) ∧
    deepHashString env (newDatacenter k8s.metadata.ns cass.cluster t seeds)
      ≠ "" ∧
    (buildDesired env k8s.metadata.ns cass.cluster t seeds).spec.size =
      t.size ∧
    (buildDesired env k8s.metadata.ns cass.cluster t
        seeds).spec.serverVersion = t.serverVersion ∧
    (buildDesired env k8s.metadata.ns cass.cluster t seeds).spec.networking =
      some { hostNetwork := true } ∧
    (0 : Nat) < 15 := by
  have hstep := processTemplate_absent env k8s cass t idx seeds w hres hget
    hcreate habsent
  refine ⟨?_, buildDesired_ann env k8s.metadata.ns cass.cluster t seeds,
    deepHashString_ne_empty env _, rfl, rfl, rfl, by omega⟩
  rw [reconcileDatacenters_cons_halt env k8s cass t rest idx seeds w ⟨15⟩ none
    (by rw [hstep])]
  rw [hstep]

theorem c6_witness :
    (reconcileDatacenters quietEnv (mkCluster [tplA]) ⟨"test", [tplA]⟩ [tplA]
      0 [] emptyWorld).result = ⟨15⟩ := by
  have h := c6_absent_creates_then_requeues quietEnv (mkCluster [tplA])
    ⟨"test", [tplA]⟩ tplA [] 0 [] emptyWorld rfl rfl rfl rfl
  rw [h.1]

/-! ## C7 -/

def notReadyEnv : Env := { quietEnv with isReady := fun _ => false }

/-- The fingerprint `quietEnv`/`notReadyEnv` compute for any resource. -/
def constHash : String := base64Encode zeroDigest.val

/-- A stored datacenter whose fingerprint annotation equals `constHash`. -/
def matchingDc (name : String) (rv : Nat) : CassandraDatacenter :=
  { metadata :=
      { ns := "k8ssandra", name := name
        anns := [(resourceHashKey, constHash)], resourceVersion := rv }
    spec := default }

def c7World : World := fun k =>
  if k = ("k8ssandra", "dc1") then
    { resource := some (matchingDc "dc1" 5), pods := [] }
  else { resource := none, pods := [] }

/-- C7 counterexample: the claim asserts the not-ready revisit delay is
strictly longer than the create-retry delay, but both branches of the code
return a 15-second requeue: a pass that finds a not-ready datacenter and a
pass that creates an absent one request the same delay. -/
theorem c7_cex :
    (reconcileDatacenters notReadyEnv (mkCluster [tplA]) ⟨"test", [tplA]⟩
      [tplA] 0 [] c7World).result.requeueAfter = 15 ∧
    (reconcileDatacenters notReadyEnv (mkCluster [tplA]) ⟨"test", [tplA]⟩
      [tplA] 0 [] c7World).error = none ∧
    (reconcileDatacenters quietEnv (mkCluster [tplA]) ⟨"test", [tplA]⟩
      [tplA] 0 [] emptyWorld).result.requeueAfter = 15 ∧
    ¬((reconcileDatacenters notReadyEnv (mkCluster [tplA]) ⟨"test", [tplA]⟩
        [tplA] 0 [] c7World).result.requeueAfter >
      (reconcileDatacenters quietEnv (mkCluster [tplA]) ⟨"test", [tplA]⟩
        [tplA] 0 [] emptyWorld).result.requeueAfter) := by
  decide

/-- C7 (amended): when a found datacenter (with an up-to-date fingerprint)
is not ready, the pass stops processing and returns a revisit-after delay
of 15 seconds with no error; that delay equals — rather than strictly
exceeds — the delay returned after creating an absent datacenter, which is
also 15 seconds. -/
theorem c7_notready_requeues_equal_delay (env : Env)
    (k8s : K8ssandraCluster) (cass : CassandraClusterTemplate)
    (t : CassandraDatacenterTemplateSpec)
    (rest : List CassandraDatacenterTemplateSpec) (idx : Nat)
    (seeds : List String) (w : World) (actual : CassandraDatacenter)
    (hres : env.resolve t.k8sContext = ResolveOutcome.ok)
    (hget : env.getFails (templateKey k8s t) = false)
    (hfound : (w (templateKey k8s t)).resource = some actual)
    (hmatch : lookupStr actual.metadata.anns resourceHashKey =
      some (deepHashString env
        (newDatacenter k8s.metadata.ns cass.cluster t seeds)))
    (hnr : env.isReady actual = false)
    (env' : Env) (k8s' : K8ssandraCluster) (cass' : CassandraClusterTemplate)
    (t' : CassandraDatacenterTemplateSpec)
    (rest' : List CassandraDatacenterTemplateSpec) (idx' : Nat)
    (seeds' : List String) (w' : World)
    (hres' : env'.resolve t'.k8sContext = ResolveOutcome.ok)
    (hget' : env'.getFails (templateKey k8s' t') = false)
    (hcreate' : env'.createFails (templateKey k8s' t') = false)
    (habsent' : (w' (templateKey k8s' t')).resource = none) :
    reconcileDatacenters env k8s cass (t :: rest) idx seeds w =
      ⟨⟨15⟩, none, w, [Op.get (templateKey k8s t)],
        [buildDesired env k8s.metadata.ns cass.cluster t seeds], seeds⟩ ∧
    (reconcileDatacenters env' k8s' cass' (t' :: rest') idx' seeds'
      w').result = ⟨15⟩ ∧
    (reconcileDatacenters env k8s cass (t :: rest) idx seeds
        w).result.requeueAfter =
      (reconcileDatacenters env' k8s' cass' (t' :: rest') idx' seeds'
        w').result.requeueAfter := by
  have hstep := processTemplate_found_hit env k8s cass t idx seeds w actual
    hres hget hfound hmatch
  have htail := convergeTail_notReady env k8s idx seeds w (templateKey k8s t)
    actual (buildDesired env k8s.metadata.ns cass.cluster t seeds)
    [Op.get (templateKey k8s t)] hnr
  have hstep2 : processTemplate env k8s cass t idx seeds w =
      ⟨some (⟨15⟩, none), seeds, w, [Op.get (templateKey k8s t)],
        buildDesired env k8s.metadata.ns cass.cluster t seeds⟩ := by
    rw [hstep, htail]
  have hrunA : reconcileDatacenters env k8s cass (t :: rest) idx seeds w =
      ⟨⟨15⟩, none, w, [Op.get (templateKey k8s t)],
        [buildDesired env k8s.metadata.ns cass.cluster t seeds], seeds⟩ := by
    rw [reconcileDatacenters_cons_halt env k8s cass t rest idx seeds w ⟨15⟩
      none (by rw [hstep2])]
    rw [hstep2]
  have hstepB := processTemplate_absent env' k8s' cass' t' idx' seeds' w'
    hres' hget' hcreate' habsent'
  have hrunB : (reconcileDatacenters env' k8s' cass' (t' :: rest') idx'
      seeds' w').result = ⟨15⟩ := by
    rw [reconcileDatacenters_cons_halt env' k8s' cass' t' rest' idx' seeds'
      w' ⟨15⟩ none (by rw [hstepB])]
  refine ⟨hrunA, hrunB, ?_⟩
  rw [hrunA, hrunB]

theorem c7_witness :
    (reconcileDatacenters notReadyEnv (mkCluster [tplA, tplB])
      ⟨"test", [tplA, tplB]⟩ [tplA, tplB] 0 [] c7World).result = ⟨15⟩ := by
  have h := c7_notready_requeues_equal_delay notReadyEnv
    (mkCluster [tplA, tplB]) ⟨"test", [tplA, tplB]⟩ tplA [tplB] 0 []
    c7World (matchingDc "dc1" 5) rfl rfl (by decide) (by decide) rfl
    quietEnv (mkCluster [tplA]) ⟨"test", [tplA]⟩ tplA [] 0 [] emptyWorld
    rfl rfl rfl rfl
  rw [h.1]

/-! ## C2 -/

def staleDc : CassandraDatacenter :=
  { metadata :=
      { ns := "k8ssandra", name := "dc1"
        anns := [(resourceHashKey, "stale")], resourceVersion := 5 }
    spec := default }

def c2World : World := fun k =>
  if k = ("k8ssandra", "dc1") then { resource := some staleDc, pods := [] }
  else { resource := none, pods := [] }

/-- C2 counterexample: on a fingerprint mismatch the object handed to the
update call is the annotated desired resource wholesale —
`desired.DeepCopyInto(actual)` replaces the actual's metadata too — so the
written object carries the desired's fresh (zero) resource version, not
the actual resource's version 5: the orchestration-managed version field
is NOT preserved. -/
theorem c2_cex :
    (c2World ("k8ssandra", "dc1")).resource = some staleDc ∧
    staleDc.metadata.resourceVersion = 5 ∧
    Op.update ("k8ssandra", "dc1")
        (buildDesired quietEnv "k8ssandra" "test" tplA []) ∈
      (reconcileDatacenters quietEnv (mkCluster [tplA]) ⟨"test", [tplA]⟩
        [tplA] 0 [] c2World).ops ∧
    (buildDesired quietEnv "k8ssandra" "test" tplA
        []).metadata.resourceVersion ≠ staleDc.metadata.resourceVersion := by
  decide

/-- C2 (amended): when the stored fingerprint annotation differs from the
freshly computed one, the pass overwrites the actual resource entirely
(spec and metadata alike) with the annotated desired resource and writes
it back: the update call receives the desired object, whose metadata is
freshly built — the actual's resource version is not carried over (the
written object's version token is the zero value) — and the store then
holds the desired content under a server-assigned version token. -/
theorem c2_mismatch_overwrites_wholesale (env : Env)
    (k8s : K8ssandraCluster) (cass : CassandraClusterTemplate)
    (t : CassandraDatacenterTemplateSpec) (idx : Nat) (seeds : List String)
    (w : World) (actual : CassandraDatacenter)
    (hres : env.resolve t.k8sContext = ResolveOutcome.ok)
    (hget : env.getFails (templateKey k8s t) = false)
    (hfound : (w (templateKey k8s t)).resource = some actual)
    (hmiss : lookupStr actual.metadata.anns resourceHashKey ≠
      some (deepHashString env
        (newDatacenter k8s.metadata.ns cass.cluster t seeds)))
    (hupd : env.updateFails (templateKey k8s t) = false)
    (hkeys : ∀ j, j < idx → dcKeyForTemplate k8s j ≠ templateKey k8s t) :
    (processTemplate env k8s cass t idx seeds w).ops.take 2 =
      [Op.get (templateKey k8s t),
        Op.update (templateKey k8s t)
          (buildDesired env k8s.metadata.ns cass.cluster t seeds)] ∧
    (buildDesired env k8s.metadata.ns cass.cluster t
        seeds).metadata.resourceVersion = 0 ∧
    ((processTemplate env k8s cass t idx seeds w).world
        (templateKey k8s t)).resource =
      some (withRV (buildDesired env k8s.metadata.ns cass.cluster t seeds)
        (actual.metadata.resourceVersion + 1)) := by
  have hstep := processTemplate_found_miss env k8s cass t idx seeds w actual
    hres hget hfound hmiss hupd
  refine ⟨?_, rfl, ?_⟩
  · rw [hstep]
    obtain ⟨suffix, hsx⟩ := convergeTail_ops_suffix env k8s idx seeds
      (World.set w (templateKey k8s t)
        { resource := some
            (withRV (buildDesired env k8s.metadata.ns cass.cluster t seeds)
              (actual.metadata.resourceVersion + 1))
          pods := (w (templateKey k8s t)).pods })
      (templateKey k8s t)
      (buildDesired env k8s.metadata.ns cass.cluster t seeds)
      (buildDesired env k8s.metadata.ns cass.cluster t seeds)
      [Op.get (templateKey k8s t),
        Op.update (templateKey k8s t)
          (buildDesired env k8s.metadata.ns cass.cluster t seeds)]
    rw [hsx]
    rw [List.take_append_of_le_length (by simp)]
    rfl
  · rw [hstep]
    rw [convergeTail_world_key env k8s idx seeds _ (templateKey k8s t) _ _ _
      hkeys]
    rw [World.set_self]

theorem c2_witness :
    (reconcileDatacenters quietEnv (mkCluster [tplA]) ⟨"test", [tplA]⟩
      [tplA] 0 [] c2World).built =
      [buildDesired quietEnv "k8ssandra" "test" tplA []] ∧
    (processTemplate quietEnv (mkCluster [tplA]) ⟨"test", [tplA]⟩ tplA 0 []
      c2World).ops.take 2 =
      [Op.get ("k8ssandra", "dc1"),
        Op.update ("k8ssandra", "dc1")
          (buildDesired quietEnv "k8ssandra" "test" tplA [])] := by
  constructor
  · decide
  · have h := c2_mismatch_overwrites_wholesale quietEnv (mkCluster [tplA])
      ⟨"test", [tplA]⟩ tplA 0 [] c2World staleDc rfl rfl (by decide)
      (by decide) rfl (by intro j hj; omega)
    exact h.1

/-! ## C1 -/

def c1World : World := fun k =>
  if k = ("k8ssandra", "dc1") then
    { resource := some (matchingDc "dc1" 5), pods := [] }
  else if k = ("k8ssandra", "dc2") then
    { resource := some (matchingDc "dc2" 7), pods := [] }
  else { resource := none, pods := [] }

/-- C1 counterexample: datacenter dc1's stored fingerprint annotation
equals the fingerprint of its current desired form, the pass completes
without error, and yet the pass issues a write to dc1's resource — the
seed-propagation patch triggered when the later datacenter dc2 becomes
ready.  "Zero update/write calls" for a fingerprint-matching datacenter is
therefore false of the pass as a whole. -/
theorem c1_cex :
    lookupStr (matchingDc "dc1" 5).metadata.anns resourceHashKey =
      some (deepHashString quietEnv
        (newDatacenter "k8ssandra" "test" tplA [])) ∧
    (reconcileDatacenters quietEnv (mkCluster [tplA, tplB])
      ⟨"test", [tplA, tplB]⟩ [tplA, tplB] 0 [] c1World).error = none ∧
    (reconcileDatacenters quietEnv (mkCluster [tplA, tplB])
      ⟨"test", [tplA, tplB]⟩ [tplA, tplB] 0 [] c1World).ops.any
        (fun o => o.isWriteTo ("k8ssandra", "dc1")) = true := by
  decide

/-- C1 (amended): within a datacenter's own convergence iteration, a
present-and-equal fingerprint annotation is the sole condition for
skipping the update: if the stored annotation equals the fingerprint of
the current desired form, the iteration issues no write to that
datacenter's resource (assuming earlier templates address other keys); if
it is absent or unequal, the update write is issued.  (A seed-propagation
patch from a later iteration may still write to the datacenter in the same
pass — see the counterexample — so the guarantee is per-iteration, not
per-pass.) -/
theorem c1_fingerprint_gates_update (env : Env) (k8s : K8ssandraCluster)
    (cass : CassandraClusterTemplate) (t : CassandraDatacenterTemplateSpec)
    (idx : Nat) (seeds : List String) (w : World)
    (actual : CassandraDatacenter)
    (hfound : (w (templateKey k8s t)).resource = some actual)
    (hkeys : ∀ j, j < idx → dcKeyForTemplate k8s j ≠ templateKey k8s t) :
    (lookupStr actual.metadata.anns resourceHashKey =
        some (deepHashString env
          (newDatacenter k8s.metadata.ns cass.cluster t seeds)) →
      ∀ o ∈ (processTemplate env k8s cass t idx seeds w).ops,
        o.isWriteTo (templateKey k8s t) = false) ∧
    (lookupStr actual.metadata.anns resourceHashKey ≠
        some (deepHashString env
          (newDatacenter k8s.metadata.ns cass.cluster t seeds)) →
      env.resolve t.k8sContext = ResolveOutcome.ok →
      env.getFails (templateKey k8s t) = false →
      Op.update (templateKey k8s t)
          (buildDesired env k8s.metadata.ns cass.cluster t seeds) ∈
        (processTemplate env k8s cass t idx seeds w).ops) := by
  constructor
  · intro hmatch
    cases hres : env.resolve t.k8sContext with
    | failed =>
      intro o ho
      simp only [processTemplate, hres] at ho
      simp at ho
    | nilClient =>
      intro o ho
      simp only [processTemplate, hres] at ho
      simp at ho
    | ok =>
      cases hget : env.getFails (templateKey k8s t) with
      | true =>
        intro o ho
        simp only [processTemplate] at ho
        rw [newDatacenter_key k8s cass.cluster t seeds, hres] at ho
        dsimp only at ho
        rw [hget] at ho
        simp at ho
        rw [ho]
        rfl
      | false =>
        rw [processTemplate_found_hit env k8s cass t idx seeds w actual hres
          hget hfound hmatch]
        refine convergeTail_no_writes env k8s idx seeds w (templateKey k8s t)
          actual _ [Op.get (templateKey k8s t)] ?_ hkeys
        intro o ho
        simp at ho
        rw [ho]
        rfl
  · intro hmiss hres hget
    cases hupd : env.updateFails (templateKey k8s t) with
    | true =>
      simp only [processTemplate]
      rw [newDatacenter_key k8s cass.cluster t seeds, hres]
      dsimp only
      rw [hget, hfound]
      dsimp only
      rw [if_neg hmiss, hupd]
      simp
      rfl
    | false =>
      rw [processTemplate_found_miss env k8s cass t idx seeds w actual hres
        hget hfound hmiss hupd]
      obtain ⟨suffix, hsx⟩ := convergeTail_ops_suffix env k8s idx seeds
        (World.set w (templateKey k8s t)
          { resource := some
              (withRV (buildDesired env k8s.metadata.ns cass.cluster t seeds)
                (actual.metadata.resourceVersion + 1))
            pods := (w (templateKey k8s t)).pods })
        (templateKey k8s t)
        (buildDesired env k8s.metadata.ns cass.cluster t seeds)
        (buildDesired env k8s.metadata.ns cass.cluster t seeds)
        [Op.get (templateKey k8s t),
          Op.update (templateKey k8s t)
            (buildDesired env k8s.metadata.ns cass.cluster t seeds)]
      rw [hsx]
      simp

theorem c1_witness :
    (processTemplate quietEnv (mkCluster [tplA]) ⟨"test", [tplA]⟩ tplA 0 []
      c1World).ops.all
        (fun o => ! o.isWriteTo ("k8ssandra", "dc1")) = true := by
  have hk : templateKey (mkCluster [tplA]) tplA = ("k8ssandra", "dc1") := rfl
  have h := (c1_fingerprint_gates_update quietEnv (mkCluster [tplA])
    ⟨"test", [tplA]⟩ tplA 0 [] c1World (matchingDc "dc1" 5) (by decide)
    (by intro j hj; omega)).1 (by decide)
  rw [List.all_eq_true]
  intro o ho
  have h2 := h o ho
  rw [hk] at h2
  simp [h2]

/-! ## C3 -/

/-- C3: the desired resource built (and created/updated) for the
datacenter at list position `i` is `newDatacenter` applied to the seed
accumulator produced by running the pass on the first `i` templates alone
— a quantity determined by positions strictly less than `i` — so it never
contains a seed contributed by a datacenter at a later position. -/
theorem c3_desired_built_from_earlier_positions (env : Env)
    (k8s : K8ssandraCluster) (cass : CassandraClusterTemplate) :
    ∀ (ts : List CassandraDatacenterTemplateSpec) (idx : Nat)
      (seeds : List String) (w : World) (i : Nat) (d : CassandraDatacenter),
      (reconcileDatacenters env k8s cass ts idx seeds w).built.get? i =
        some d →
      ∃ t, ts.get? i = some t ∧
        d = buildDesired env k8s.metadata.ns cass.cluster t
          (reconcileDatacenters env k8s cass (ts.take i) idx seeds
            w).seedsOut := by
  intro ts
  induction ts with
  | nil =>
    intro idx seeds w i d h
    simp [reconcileDatacenters] at h
  | cons t rest ih =>
    intro idx seeds w i d h
    cases hh : (processTemplate env k8s cass t idx seeds w).halt with
    | some p =>
      rcases p with ⟨res, err⟩
      rw [reconcileDatacenters_cons_halt env k8s cass t rest idx seeds w res
        err hh] at h
      cases i with
      | zero =>
        simp at h
        refine ⟨t, rfl, ?_⟩
        rw [← h, processTemplate_desired]
        rfl
      | succ n => simp at h
    | none =>
      rw [reconcileDatacenters_cons_cont env k8s cass t rest idx seeds w hh]
        at h
      cases i with
      | zero =>
        simp at h
        refine ⟨t, rfl, ?_⟩
        rw [← h, processTemplate_desired]
        rfl
      | succ n =>
        simp only [List.get?_cons_succ] at h
        obtain ⟨t', ht', hd⟩ := ih (idx + 1)
          (processTemplate env k8s cass t idx seeds w).seeds
          (processTemplate env k8s cass t idx seeds w).world n d h
        refine ⟨t', by simpa using ht', ?_⟩
        rw [hd, List.take_succ_cons,
          reconcileDatacenters_cons_cont env k8s cass t (rest.take n) idx
            seeds w hh]

theorem c3_witness :
    ∃ t, [tplA, tplB].get? 1 = some t ∧
      buildDesired quietEnv "k8ssandra" "test" tplB [] =
        buildDesired quietEnv (mkCluster [tplA, tplB]).metadata.ns
          (⟨"test", [tplA, tplB]⟩ : CassandraClusterTemplate).cluster t
          (reconcileDatacenters quietEnv (mkCluster [tplA, tplB])
            ⟨"test", [tplA, tplB]⟩ ([tplA, tplB].take 1) 0 []
            c1World).seedsOut :=
  c3_desired_built_from_earlier_positions quietEnv (mkCluster [tplA, tplB])
    ⟨"test", [tplA, tplB]⟩ [tplA, tplB] 0 [] c1World 1
    (buildDesired quietEnv "k8ssandra" "test" tplB []) (by decide)
